import Mathlib

/-!
Verification of the push-to-talk (PTT) core of the Stoat desktop client.

The repository contains two sibling implementations of the PTT controller:
the simplified module in `src/native/pushToTalk.ts` and the multi-strategy
module embedded in `src/native/window.ts`, plus the renderer preload in
`src/world/pushToTalk.ts`.  Definitions below are shallow embeddings of
those functions: module-level mutable variables become explicit state
records, and every call to `sendPttState`/callback invocation is collected
in an output list (the send itself is guarded by window liveness, which is
external plumbing).
-/

namespace StoatPTT

/-- Modifier flags, as used for `keybindModifiers` and the low-level
listener modifier tracking. -/
structure Modifiers where
  ctrl : Bool
  shift : Bool
  alt : Bool
  meta : Bool
deriving DecidableEq

/-- Canonical accelerator record, the return shape of `parseAccelerator`
in both `src/native/pushToTalk.ts` (lines 72-89) and
`src/native/window.ts` (lines 466-492). -/
structure Accelerator where
  key : String
  ctrl : Bool
  shift : Bool
  alt : Bool
  meta : Bool
deriving DecidableEq

/-- The fields of `Electron.Input` consulted by `matchesKeybind`. -/
structure Input where
  key : String
  control : Bool
  shift : Bool
  alt : Bool
  meta : Bool
deriving DecidableEq

/-- The `pushToTalkMode` configuration value. -/
inductive Mode where
  | hold
  | toggle
deriving DecidableEq

/-- The `input.type` values distinguished by `handleBeforeInputEvent`. -/
inductive KeyEvtType where
  | keyDown
  | keyUp
  | char
deriving DecidableEq

/-- The configuration fields read by the PTT modules. -/
structure Config where
  pushToTalk : Bool
  pushToTalkKeybind : String
  pushToTalkMode : Mode
deriving DecidableEq

/-- JS whitespace test for `String.prototype.trim` (the accelerator
strings involved only ever contain ASCII whitespace). -/
def jsIsWhitespace (c : Char) : Bool :=
  c == ' ' || c == '\t' || c == '\n' || c == '\r'

/-- JS `String.prototype.trim`: drop whitespace from both ends. -/
def jsTrim (s : String) : String :=
  String.mk (((s.toList.dropWhile jsIsWhitespace).reverse.dropWhile jsIsWhitespace).reverse)

/-- JS `String.prototype.toLowerCase` (ASCII case mapping suffices for the
key names involved). -/
def jsToLower (s : String) : String :=
  String.mk (s.toList.map Char.toLower)

/-- JS `String.prototype.split` with a set of single-character separators,
as used with the character class of `+` and `-` in
`src/native/pushToTalk.ts` line 75 and with the single separator `+` in
`src/native/window.ts` line 475.  Mirrors JS semantics: the empty string
splits to a singleton list of the empty string, and adjacent separators
produce empty tokens. -/
def jsSplitChars (isSep : Char → Bool) (s : String) : List String :=
  (s.toList.foldr
    (fun c acc =>
      if isSep c then [] :: acc
      else
        match acc with
        | g :: rest => (c :: g) :: rest
        | [] => [[c]])
    [[]]).map fun g => String.mk g

/-- JS `String.prototype.includes`: contiguous substring containment. -/
def strIncludes (s sub : String) : Bool :=
  decide (sub.toList <:+: s.toList)

/-- The accelerator parser of `src/native/pushToTalk.ts` lines 72-89:
lower-case, split on `+` and `-`, trim each part, the final part is the
key (`parts.pop() || ""`), and the remaining parts are searched for the
modifier names. -/
def parseAccelerator (accelerator : String) : Accelerator :=
  let parts := (jsSplitChars (fun c => c == '+' || c == '-') (jsToLower accelerator)).map jsTrim
  let key := parts.getLast?.getD ""
  let rest := parts.dropLast
  { key := key
    ctrl := rest.contains "ctrl" || rest.contains "control"
    shift := rest.contains "shift"
    alt := rest.contains "alt"
    meta := rest.contains "meta" || rest.contains "cmd" || rest.contains "command" }

/-- The accelerator parser of `src/native/window.ts` lines 466-492.  It is
identical to the one in `src/native/pushToTalk.ts` except that the split
separator is `+` only (the source calls `split` with the plain string
argument, not a character class). -/
def parseAcceleratorWin (accelerator : String) : Accelerator :=
  let parts := (jsSplitChars (fun c => c == '+') (jsToLower accelerator)).map jsTrim
  let key := parts.getLast?.getD ""
  let rest := parts.dropLast
  { key := key
    ctrl := rest.contains "ctrl" || rest.contains "control"
    shift := rest.contains "shift"
    alt := rest.contains "alt"
    meta := rest.contains "meta" || rest.contains "command" || rest.contains "cmd" }

/-- The parsing algorithm exactly as the specification words it: the
string is lower-cased and split on the separators `+` and `-`, each token
trimmed; the final token is the key; each modifier flag is true exactly
when some preceding token is in that modifier's fixed name vocabulary;
unrecognized preceding tokens are silently dropped. -/
def claimedParse (s : String) : Accelerator :=
  let tokens := (jsSplitChars (fun c => c == '+' || c == '-') (jsToLower s)).map jsTrim
  let key := tokens.getLast?.getD ""
  let preceding := tokens.dropLast
  { key := key
    ctrl := preceding.any fun t => ["ctrl", "control"].contains t
    shift := preceding.any fun t => ["shift"].contains t
    alt := preceding.any fun t => ["alt"].contains t
    meta := preceding.any fun t => ["meta", "cmd", "command"].contains t }

/-- The specification-worded algorithm with the separator set amended to
`+` only, matching what `src/native/window.ts` actually does. -/
def claimedParseWin (s : String) : Accelerator :=
  let tokens := (jsSplitChars (fun c => c == '+') (jsToLower s)).map jsTrim
  let key := tokens.getLast?.getD ""
  let preceding := tokens.dropLast
  { key := key
    ctrl := preceding.any fun t => ["ctrl", "control"].contains t
    shift := preceding.any fun t => ["shift"].contains t
    alt := preceding.any fun t => ["alt"].contains t
    meta := preceding.any fun t => ["meta", "cmd", "command"].contains t }

example : parseAccelerator "Shift+V" = ⟨"v", false, true, false, false⟩ := by decide
example : parseAccelerator "ctrl-v" = ⟨"v", true, false, false, false⟩ := by decide
example : parseAcceleratorWin "ctrl-v" = ⟨"ctrl-v", false, false, false, false⟩ := by
  decide
example : parseAccelerator "" = ⟨"", false, false, false, false⟩ := by decide

/-- The module-level mutable variables of `src/native/pushToTalk.ts`
(lines 11-24): the PTT flag, the accelerator currently registered with
`globalShortcut`, the parsed keybind used by `before-input-event`
matching, the pending hold-mode timeout (modelled by its absolute fire
time), and the two timestamps used by the hold emulation. -/
structure ModState where
  isPttActive : Bool
  registeredAccelerator : Option String
  currentKeybind : String
  keybindModifiers : Modifiers
  holdModeTimeout : Option Int
  lastGlobalTriggerTime : Int
  lastActivationTime : Int
deriving DecidableEq

/-- `deactivatePtt` of `src/native/pushToTalk.ts` lines 46-56: send
`{active := false}` only when currently active, and always clear the
pending hold-mode timeout.  The returned list holds the payloads passed
to `sendPttState`. -/
def deactivatePtt (st : ModState) : ModState × List Bool :=
  let p : ModState × List Bool :=
    if st.isPttActive then ({ st with isPttActive := false }, [false]) else (st, [])
  ({ p.1 with holdModeTimeout := none }, p.2)

/-- `activatePtt` of `src/native/pushToTalk.ts` lines 61-67: send
`{active := true}` only when currently inactive. -/
def activatePtt (st : ModState) : ModState × List Bool :=
  if st.isPttActive then (st, []) else ({ st with isPttActive := true }, [true])

/-- `matchesKeybind` of `src/native/pushToTalk.ts` lines 94-102: the key
must be equal (case-insensitively) and all four modifier flags must be
exactly equal — an extra held modifier disqualifies the match. -/
def matchesKeybind (input : Input) (currentKeybind : String) (m : Modifiers) : Bool :=
  (jsToLower input.key == jsToLower currentKeybind) &&
    (input.control == m.ctrl) && (input.shift == m.shift) &&
    (input.alt == m.alt) && (input.meta == m.meta)

/-- `handleBeforeInputEvent` of `src/native/pushToTalk.ts` lines 108-153:
a non-matching event is ignored; on a match, Hold mode activates on
keyDown and deactivates on keyUp, Toggle mode flips and sends on keyDown
only. -/
def handleBeforeInputEvent (mode : Mode) (st : ModState) (input : Input)
    (ty : KeyEvtType) : ModState × List Bool :=
  if !matchesKeybind input st.currentKeybind st.keybindModifiers then (st, [])
  else
    match mode, ty with
    | .hold, .keyDown => activatePtt st
    | .hold, .keyUp => deactivatePtt st
    | .hold, .char => (st, [])
    | .toggle, .keyDown =>
        ({ st with isPttActive := !st.isPttActive }, [!st.isPttActive])
    | .toggle, _ => (st, [])

/-- The `push-to-talk-manual` IPC handler of `src/native/pushToTalk.ts`
lines 365-369, for a well-typed boolean payload: it assigns
`isPttActive` directly and re-sends the state unconditionally, without
going through `activatePtt`/`deactivatePtt`. -/
def pttManualBool (st : ModState) (active : Bool) : ModState × List Bool :=
  ({ st with isPttActive := active }, [active])

/-- Hold-emulation constant of `src/native/pushToTalk.ts` line 21. -/
def GLOBAL_HOLD_TIMEOUT_MS : Int := 400

/-- Minimum-hold constant of `src/native/pushToTalk.ts` line 24. -/
def MIN_HOLD_DURATION_MS : Int := 600

/-- Outcome of the auto-deactivation timeout callback of
`registerGlobalHotkey` (`src/native/pushToTalk.ts` lines 197-218):
either `deactivatePtt` runs now, or the timeout is rescheduled to the
given absolute time, at which the extension callback deactivates
unconditionally. -/
inductive TimerFire where
  | deactivated (t : Int)
  | extended (t : Int)
deriving DecidableEq

/-- The body of the hold-mode timeout callback (`src/native/pushToTalk.ts`
lines 197-218), as a function of the activation timestamp
`lastActivationTime` and the absolute time `now` at which the timer
fires: if the hold lasted at least `MIN_HOLD_DURATION_MS` it deactivates
now, otherwise it clears the timer and re-arms it for
`MIN_HOLD_DURATION_MS - holdDuration + 100` ms later. -/
def holdTimeoutFire (lastActivationTime now : Int) : TimerFire :=
  let holdDuration := now - lastActivationTime
  if MIN_HOLD_DURATION_MS ≤ holdDuration then .deactivated now
  else .extended (now + (MIN_HOLD_DURATION_MS - holdDuration + 100))

/-- The absolute time at which the `deactivatePtt` call triggered by the
timeout chain actually happens (the extended timer deactivates
unconditionally when it fires). -/
def holdDeactivationTime (lastActivationTime now : Int) : Int :=
  match holdTimeoutFire lastActivationTime now with
  | .deactivated t => t
  | .extended t => t

/-- `unregisterPushToTalkHotkey` of `src/native/pushToTalk.ts` lines
326-344: first `deactivatePtt`, then remove the input listener and drop
the `globalShortcut` registration. -/
def unregisterPushToTalkHotkey (st : ModState) : ModState × List Bool :=
  let p := deactivatePtt st
  ({ p.1 with registeredAccelerator := none }, p.2)

/-- The binding phase of `registerPushToTalkHotkey`
(`src/native/pushToTalk.ts` lines 264-320): parse the accelerator into
`currentKeybind`/`keybindModifiers`, attach the `before-input-event`
listener, call `registerGlobalHotkey` (which records the accelerator
only on success, abstracted by the `globalSuccess` flag), then force
`isPttActive` to false and send the initial off state. -/
def bindStrategies (accelerator : String) (globalSuccess : Bool) (st : ModState) :
    ModState × List Bool :=
  let parsed := parseAccelerator accelerator
  let st1 := { st with currentKeybind := parsed.key,
                       keybindModifiers :=
                         ⟨parsed.ctrl, parsed.shift, parsed.alt, parsed.meta⟩ }
  let st2 :=
    if globalSuccess then { st1 with registeredAccelerator := some accelerator } else st1
  ({ st2 with isPttActive := false }, [false])

/-- `registerPushToTalkHotkey` of `src/native/pushToTalk.ts` lines
244-321: when PTT is disabled it unregisters; otherwise the accelerator
is the configured keybind with `"Shift+Space"` substituted for an empty
string, re-registration with the already-registered accelerator returns
immediately, and otherwise the existing binding is torn down in full
before the strategies are bound.  The configured mode is not consulted
anywhere in the registration path. -/
def registerPushToTalkHotkey (globalSuccess : Bool) (cfg : Config) (st : ModState) :
    ModState × List Bool :=
  if cfg.pushToTalk = false then unregisterPushToTalkHotkey st
  else
    let accelerator :=
      if cfg.pushToTalkKeybind = "" then "Shift+Space" else cfg.pushToTalkKeybind
    if st.registeredAccelerator = some accelerator then (st, [])
    else
      let p1 := unregisterPushToTalkHotkey st
      let p2 := bindStrategies accelerator globalSuccess p1.1
      (p2.1, p1.2 ++ p2.2)

/-- The module state right after load (`src/native/pushToTalk.ts` lines
11-24). -/
def modInitState : ModState :=
  ⟨false, none, "", ⟨false, false, false, false⟩, none, 0, 0⟩

/-- A runtime JS value, as far as the `push-to-talk-manual` IPC handlers
inspect one: the typed TS signature does not constrain what the renderer
actually sends. -/
inductive JsValue where
  | vUndefined
  | vNull
  | vBool (b : Bool)
  | vNum (n : Int)
  | vStr (s : String)
  | vObj (fields : List (String × JsValue))

/-- JS truthiness of a value (NaN does not arise here). -/
def truthy : JsValue → Bool
  | .vUndefined => false
  | .vNull => false
  | .vBool b => b
  | .vNum n => n != 0
  | .vStr s => s ≠ ""
  | .vObj _ => true

/-- Whether `typeof data === "object"` holds (true for objects and for
`null`). -/
def typeofIsObject : JsValue → Bool
  | .vNull => true
  | .vObj _ => true
  | _ => false

/-- The JS `in` operator restricted to the object case reached by the
validation guard. -/
def hasField (data : JsValue) (name : String) : Bool :=
  match data with
  | .vObj fields => fields.any fun f => f.1 == name
  | _ => false

/-- Property lookup on an object, yielding `undefined` for a missing
field. -/
def getField (data : JsValue) (name : String) : JsValue :=
  match data with
  | .vObj fields =>
      match fields.find? (fun f => f.1 == name) with
      | some f => f.2
      | none => .vUndefined
  | _ => .vUndefined

/-- Whether `typeof v === "boolean"`. -/
def isBoolVal : JsValue → Bool
  | .vBool _ => true
  | _ => false

/-- The boolean carried by a value known to be a JS boolean. -/
def jsBoolVal : JsValue → Bool
  | .vBool b => b
  | _ => false

/-- JS property access `data.active`, which throws a `TypeError`
(modelled as `none`) when `data` is `null` or `undefined` and yields
`undefined` on other primitives. -/
def jsGetProp (data : JsValue) (name : String) : Option JsValue :=
  match data with
  | .vUndefined => none
  | .vNull => none
  | .vObj _ => some (getField data name)
  | _ => some .vUndefined

/-- The validation guard of the `push-to-talk-manual` handler in
`src/native/window.ts` lines 1007-1012: the payload must be truthy, of
object type, carry an `active` field, and that field must be a
boolean. -/
def manualPayloadValid (data : JsValue) : Bool :=
  truthy data && typeofIsObject data && hasField data "active" &&
    isBoolVal (getField data "active")

/-- The module-level mutable variables of the PTT module embedded in
`src/native/window.ts` (lines 310-319): the active flag, the registered
accelerator, the Wayland/portal detection flags, and the liveness of the
global key listener and of the DBus handle pair. -/
structure WinState where
  isPttActive : Bool
  registeredAccelerator : Option String
  isWayland : Bool
  portalAvailable : Bool
  hasGlobalKeyListener : Bool
  hasDbus : Bool
deriving DecidableEq

/-- The `push-to-talk-manual` IPC handler of `src/native/window.ts` lines
1004-1020: a payload passing the validation guard is applied directly to
`isPttActive` and re-sent unconditionally; anything else is dropped with
only a logged warning. -/
def winManualHandler (w : WinState) (data : JsValue) : WinState × List Bool :=
  if manualPayloadValid data then
    let b := jsBoolVal (getField data "active")
    ({ w with isPttActive := b }, [b])
  else (w, [])

/-- The `push-to-talk-manual` IPC handler of `src/native/pushToTalk.ts`
lines 365-369 at the JS dynamic-typing level: no validation is performed,
`isPttActive` is assigned `data.active` verbatim and that same value is
sent; property access on `null`/`undefined` throws (`none`). -/
def pttManualHandlerDyn (data : JsValue) :
    Option (JsValue × List JsValue) :=
  match jsGetProp data "active" with
  | none => none
  | some v => some (v, [v])

/-- `unregisterPushToTalkHotkey` of `src/native/window.ts` lines 916-973:
kill the global key listener, then — only if an accelerator is registered
— drop the registration, force `isPttActive` to false and send the off
state; finally release the DBus resources and reset the Wayland/portal
flags.  Note the deactivation is guarded by `registeredAccelerator`. -/
def winUnregister (w : WinState) : WinState × List Bool :=
  let w1 := { w with hasGlobalKeyListener := false }
  let p : WinState × List Bool :=
    if w1.registeredAccelerator.isSome then
      ({ w1 with registeredAccelerator := none, isPttActive := false }, [false])
    else (w1, [])
  ({ p.1 with hasDbus := false, isWayland := false, portalAvailable := false }, p.2)

/-- The window module state right after load (`src/native/window.ts`
lines 310-319). -/
def winStart : WinState := ⟨false, none, false, false, false, false⟩

/-- The modifier guard of `registerGlobalKeyListener`
(`src/native/window.ts` lines 612-618): every modifier required by the
accelerator must currently be held; extra held modifiers are
tolerated. -/
def hasAllModifiers (required held : Modifiers) : Bool :=
  if required.ctrl && !held.ctrl then false
  else if required.shift && !held.shift then false
  else if required.alt && !held.alt then false
  else if required.meta && !held.meta then false
  else true

/-- The key test of `registerGlobalKeyListener` (`src/native/window.ts`
line 653): the event key name equals the target key or contains it as a
substring. -/
def lowLevelKeyMatch (keyName targetKey : String) : Bool :=
  keyName == targetKey || strIncludes keyName targetKey

/-- The qualification test for a down edge in `registerGlobalKeyListener`
(`src/native/window.ts` line 661): key match plus all required modifiers
held. -/
def lowLevelQualifyDown (targetKey : String) (required held : Modifiers)
    (keyName : String) : Bool :=
  lowLevelKeyMatch keyName targetKey && hasAllModifiers required held

/-- The renderer preload state of `src/world/pushToTalk.ts` (lines 4-5):
the set of subscribed callbacks (identified by numbers, in insertion
order) and the last seen PTT state. -/
structure PreloadState where
  callbacks : List Nat
  currentPttState : Bool
deriving DecidableEq

/-- The `push-to-talk` IPC listener of `src/world/pushToTalk.ts` lines
13-27: callbacks fire only when the incoming value differs from the
current one.  The output lists the callback invocations as
(callback, payload) pairs. -/
def preloadOnPush (ps : PreloadState) (active : Bool) :
    PreloadState × List (Nat × Bool) :=
  if ps.currentPttState ≠ active then
    ({ ps with currentPttState := active }, ps.callbacks.map fun cb => (cb, active))
  else (ps, [])

/-- `pushToTalk.onStateChange` of `src/world/pushToTalk.ts` lines 34-40:
add the callback to the set and immediately invoke it synchronously with
the current state. -/
def preloadOnStateChange (ps : PreloadState) (cb : Nat) :
    PreloadState × List (Nat × Bool) :=
  ({ ps with callbacks :=
      if ps.callbacks.contains cb then ps.callbacks else ps.callbacks ++ [cb] },
   [(cb, ps.currentPttState)])

/-- `pushToTalk.setManualState` of `src/world/pushToTalk.ts` lines 53-64:
post the payload to the main process (covered by the main-side handler
models), overwrite the local state, and invoke every subscribed callback
with the requested value, without comparing it to the current state. -/
def preloadSetManualState (ps : PreloadState) (active : Bool) :
    PreloadState × List (Nat × Bool) :=
  ({ ps with currentPttState := active }, ps.callbacks.map fun cb => (cb, active))

/-- A sample module state that is currently active. -/
def activeSample : ModState :=
  ⟨true, none, "", ⟨false, false, false, false⟩, none, 0, 0⟩

/-- A sample module state bound to the accelerator string `V`. -/
def boundVState : ModState :=
  ⟨false, some "V", "v", ⟨false, false, false, false⟩, none, 0, 0⟩

/-- Searching a token list for one name equals scanning it against a
single-name vocabulary. -/
theorem contains_single (l : List String) (a : String) :
    l.contains a = l.any fun t => [a].contains t := by
  rw [Bool.eq_iff_iff]
  simp

/-- Searching a token list for either of two names equals scanning it
against a two-name vocabulary. -/
theorem contains_pair (l : List String) (a b : String) :
    (l.contains a || l.contains b) = l.any fun t => [a, b].contains t := by
  rw [Bool.eq_iff_iff]
  simp
  aesop

/-- Searching a token list for any of three names equals scanning it
against a three-name vocabulary. -/
theorem contains_triple (l : List String) (a b c : String) :
    (l.contains a || l.contains b || l.contains c) =
      l.any fun t => [a, b, c].contains t := by
  rw [Bool.eq_iff_iff]
  simp
  aesop

/-- C2: in Hold mode under the native global-shortcut strategy, an
auto-deactivation timer firing less than `MIN_HOLD_DURATION_MS` after the
activation at `t0` is rescheduled (to `t0 + 700`, which is not before
`t0 + 600`) instead of deactivating, and in every case the deactivation
happens no earlier than `t0 + MIN_HOLD_DURATION_MS`. -/
theorem claim2_min_hold (t0 now : Int) :
    (now - t0 < MIN_HOLD_DURATION_MS →
      holdTimeoutFire t0 now = .extended (t0 + 700)) ∧
      t0 + MIN_HOLD_DURATION_MS ≤ holdDeactivationTime t0 now := by
  simp only [holdTimeoutFire, holdDeactivationTime, MIN_HOLD_DURATION_MS]
  by_cases hc : (600 : Int) ≤ now - t0
  · rw [if_pos hc]
    refine ⟨fun hlt => absurd hc (by omega), ?_⟩
    show t0 + 600 ≤ now
    omega
  · rw [if_neg hc]
    refine ⟨fun _ => ?_, ?_⟩
    · have he : now + (600 - (now - t0) + 100) = t0 + 700 := by omega
      rw [he]
    · show t0 + 600 ≤ now + (600 - (now - t0) + 100)
      omega

/-- Witness for C2: activation at time 0, timer fires at 50ms; the timer
is rescheduled to 700ms and no deactivation happens before 600ms. -/
theorem claim2_min_hold_witness :
    holdTimeoutFire 0 50 = .extended (0 + 700) ∧
      (0 : Int) + MIN_HOLD_DURATION_MS ≤ holdDeactivationTime 0 50 :=
  ⟨(claim2_min_hold 0 50).1 (by decide), (claim2_min_hold 0 50).2⟩

/-- C6 counterexample: starting from an already-active state, calling
`activatePtt` twice in a row yields zero state-change events, not exactly
one as the claim states for every starting state. -/
theorem claim6_counterexample :
    ((activatePtt activeSample).2 ++
      (activatePtt (activatePtt activeSample).1).2).length ≠ 1 := by decide

/-- C6 amended: from an inactive state, `activatePtt` twice emits exactly
one event and from an active state none; symmetrically for
`deactivatePtt`; in both cases the second call is a no-op that emits
nothing. -/
theorem claim6_idempotent_amended (st : ModState) :
    (activatePtt st).2 ++ (activatePtt (activatePtt st).1).2 =
      (if st.isPttActive then [] else [true]) ∧
    (deactivatePtt st).2 ++ (deactivatePtt (deactivatePtt st).1).2 =
      (if st.isPttActive then [false] else []) ∧
    (activatePtt (activatePtt st).1).2 = [] ∧
    (deactivatePtt (deactivatePtt st).1).2 = [] := by
  obtain ⟨a, racc, ck, km, hmt, lt, la⟩ := st
  cases a <;> simp [activatePtt, deactivatePtt]

/-- C9: with PTT enabled and an empty configured keybind, registration
behaves exactly as if the keybind were `"Shift+Space"`; from the initial
state it binds the accelerator `"Shift+Space"` and installs the parsed
key `"space"` for focus-scoped matching. -/
theorem claim9_default_keybind (gs : Bool) (m : Mode) (st : ModState) :
    registerPushToTalkHotkey gs ⟨true, "", m⟩ st =
      registerPushToTalkHotkey gs ⟨true, "Shift+Space", m⟩ st ∧
    (registerPushToTalkHotkey true ⟨true, "", m⟩ modInitState).1.registeredAccelerator =
      some "Shift+Space" ∧
    (registerPushToTalkHotkey true ⟨true, "", m⟩ modInitState).1.currentKeybind =
      "space" :=
  ⟨rfl, rfl, rfl⟩

/-- C10: subscribing through `pushToTalk.onStateChange` immediately and
synchronously invokes the new callback exactly once with the current PTT
state, leaves that state unchanged, and registers the callback for
subsequent deliveries. -/
theorem claim10_subscribe_immediate (ps : PreloadState) (cb : Nat) :
    (preloadOnStateChange ps cb).2 = [(cb, ps.currentPttState)] ∧
    cb ∈ (preloadOnStateChange ps cb).1.callbacks ∧
    (preloadOnStateChange ps cb).1.currentPttState = ps.currentPttState := by
  refine ⟨rfl, ?_, rfl⟩
  simp only [preloadOnStateChange]
  by_cases h : ps.callbacks.contains cb
  · rw [if_pos h]
    exact List.elem_iff.mp h
  · rw [if_neg h]
    exact List.mem_append.mpr (Or.inr (List.mem_singleton.mpr rfl))

/-- Extension of `contains_triple` that matches a vocabulary whose last
two names are listed in the opposite order. -/
theorem contains_triple_swap (l : List String) (a b c : String) :
    (l.contains a || l.contains b || l.contains c) =
      l.any fun t => [a, c, b].contains t := by
  rw [Bool.eq_iff_iff]
  simp
  aesop

/-- C1 counterexample: activating through the manual-override IPC while
no accelerator is registered (the designed Wayland local-fallback path)
and then tearing down via the `src/native/window.ts`
`unregisterPushToTalkHotkey` leaves `isPttActive` true and delivers no
terminal off event, so teardown does not always drive the state back to
inactive. -/
theorem claim1_counterexample :
    (winUnregister
        (winManualHandler winStart
          (JsValue.vObj [("active", JsValue.vBool true)])).1).1.isPttActive = true ∧
    (winUnregister
        (winManualHandler winStart
          (JsValue.vObj [("active", JsValue.vBool true)])).1).2 = [] :=
  ⟨rfl, rfl⟩

/-- C1 amended: the `src/native/pushToTalk.ts` teardown always drives
the state inactive, emits the terminal off event exactly when the state
was active, and is idempotent; the `src/native/window.ts` teardown is
idempotent but deactivates and emits the terminal off event only when an
accelerator is registered, leaving a manually-activated unbound state
untouched. -/
theorem claim1_teardown_amended (st : ModState) (w : WinState) :
    (unregisterPushToTalkHotkey st).1.isPttActive = false ∧
    (unregisterPushToTalkHotkey st).2 = (if st.isPttActive then [false] else []) ∧
    unregisterPushToTalkHotkey (unregisterPushToTalkHotkey st).1 =
      ((unregisterPushToTalkHotkey st).1, []) ∧
    (winUnregister w).1.isPttActive =
      (if w.registeredAccelerator.isSome then false else w.isPttActive) ∧
    (winUnregister w).2 = (if w.registeredAccelerator.isSome then [false] else []) ∧
    winUnregister (winUnregister w).1 = ((winUnregister w).1, []) := by
  obtain ⟨a, racc, ck, km, hmt, lt, la⟩ := st
  obtain ⟨wa, wracc, wi, wp, wk, wd⟩ := w
  cases a <;> cases wracc <;>
    simp [unregisterPushToTalkHotkey, deactivatePtt, winUnregister]

/-- C3 counterexample: with the state already active, the manual-state
handler re-sends `{active := true}` although a strategy edge through
`activatePtt` from the same state emits nothing, and the preload
`setManualState` invokes the subscribed callback again with the unchanged
value — the manual override is not processed through the
`activatePtt`/`deactivatePtt` suppression path and a duplicate does reach
the consumer. -/
theorem claim3_counterexample :
    (pttManualBool activeSample true).2 = [true] ∧
    (activatePtt activeSample).2 = [] ∧
    (preloadSetManualState ⟨[0], true⟩ true).2 = [(0, true)] :=
  ⟨rfl, rfl, rfl⟩

/-- C3 amended: `setManualState` updates the internal `isPttActive`
bookkeeping, so subsequent strategy edges compute deltas against the new
baseline, but it bypasses the debounce: both main-process handlers
unconditionally re-send the state even when it is unchanged (and the
preload invokes its callbacks unconditionally); duplicate suppression of
main-originated events happens only in the renderer preload IPC
listener. -/
theorem claim3_manual_amended (st : ModState) (v : Bool) (w : WinState)
    (ps : PreloadState) :
    (pttManualBool st v).1.isPttActive = v ∧
    (pttManualBool st v).2 = [v] ∧
    (activatePtt (pttManualBool st true).1).2 = [] ∧
    (deactivatePtt (pttManualBool st false).1).2 = [] ∧
    winManualHandler w (JsValue.vObj [("active", JsValue.vBool v)]) =
      ({ w with isPttActive := v }, [v]) ∧
    preloadOnPush ps ps.currentPttState = (ps, []) := by
  refine ⟨rfl, rfl, ?_, ?_, rfl, ?_⟩
  · simp [pttManualBool, activatePtt]
  · simp [pttManualBool, deactivatePtt]
  · simp [preloadOnPush]

/-- C4: the focus-scoped interceptor matches exactly — any extra held
modifier that the accelerator does not require disqualifies the event and
no activate/deactivate/toggle happens — while the low-level key hook only
requires that every demanded modifier is held (extra held modifiers are
tolerated) and matches the key by equality or substring containment; in
particular the ctrl+v event against a bare `v` accelerator is rejected by
the former and qualified by the latter. -/
theorem claim4_exact_vs_loose (i : Input) (kb : String) (m : Modifiers) :
    ((i.control = true ∧ m.ctrl = false) ∨ (i.shift = true ∧ m.shift = false) ∨
        (i.alt = true ∧ m.alt = false) ∨ (i.meta = true ∧ m.meta = false) →
      matchesKeybind i kb m = false) ∧
    (∀ (mode : Mode) (st : ModState) (ty : KeyEvtType),
      matchesKeybind i st.currentKeybind st.keybindModifiers = false →
        handleBeforeInputEvent mode st i ty = (st, [])) ∧
    (∀ req held : Modifiers, hasAllModifiers req held = true ↔
      ((req.ctrl = true → held.ctrl = true) ∧ (req.shift = true → held.shift = true) ∧
        (req.alt = true → held.alt = true) ∧ (req.meta = true → held.meta = true))) ∧
    (∀ kn k : String,
      lowLevelKeyMatch kn k = true ↔ (kn = k ∨ k.toList <:+: kn.toList)) ∧
    matchesKeybind ⟨"v", true, false, false, false⟩ "v"
      ⟨false, false, false, false⟩ = false ∧
    lowLevelQualifyDown "v" ⟨false, false, false, false⟩
      ⟨true, false, false, false⟩ "v" = true := by
  refine ⟨?_, ?_, ?_, ?_, rfl, rfl⟩
  · rintro (⟨h1, h2⟩ | ⟨h1, h2⟩ | ⟨h1, h2⟩ | ⟨h1, h2⟩) <;>
      simp [matchesKeybind, h1, h2]
  · intro mode st ty hm
    simp [handleBeforeInputEvent, hm]
  · intro req held
    obtain ⟨rc, rs, ra, rm⟩ := req
    obtain ⟨hc, hs, ha, hm⟩ := held
    revert rc rs ra rm hc hs ha hm
    decide
  · intro kn k
    simp [lowLevelKeyMatch, strIncludes]

/-- Witness for C4: the ctrl+v event against the bare `v` accelerator is
rejected by the exact matcher, and the low-level modifier guard accepts
the same situation because no modifier is demanded. -/
theorem claim4_witness :
    matchesKeybind ⟨"v", true, false, false, false⟩ "v"
      ⟨false, false, false, false⟩ = false ∧
    hasAllModifiers ⟨false, false, false, false⟩ ⟨true, false, false, false⟩ = true :=
  ⟨(claim4_exact_vs_loose ⟨"v", true, false, false, false⟩ "v"
      ⟨false, false, false, false⟩).1 (Or.inl ⟨rfl, rfl⟩),
    ((claim4_exact_vs_loose ⟨"v", true, false, false, false⟩ "v"
        ⟨false, false, false, false⟩).2.2.1 ⟨false, false, false, false⟩
        ⟨true, false, false, false⟩).mpr (by simp)⟩

/-- C5 counterexample: after binding accelerator `V` in hold mode,
re-registering the same accelerator with the toggle mode is a complete
no-op — no teardown, no rebind, no events — although the claim requires a
full teardown whenever the mode differs. -/
theorem claim5_counterexample :
    registerPushToTalkHotkey true ⟨true, "V", Mode.toggle⟩
        (registerPushToTalkHotkey true ⟨true, "V", Mode.hold⟩ modInitState).1 =
      ((registerPushToTalkHotkey true ⟨true, "V", Mode.hold⟩ modInitState).1, []) :=
  rfl

/-- C5 amended: with PTT enabled, re-registration is a no-op exactly when
the requested accelerator (after empty-string defaulting) equals the
currently registered accelerator string — the mode is not compared and
never influences the registration path — and when the accelerator
differs, the existing binding is fully torn down before the new one is
attempted. -/
theorem claim5_reregistration_amended (gs : Bool) (cfg : Config) (st : ModState) :
    (cfg.pushToTalk = true →
      st.registeredAccelerator =
          some (if cfg.pushToTalkKeybind = "" then "Shift+Space"
            else cfg.pushToTalkKeybind) →
        registerPushToTalkHotkey gs cfg st = (st, [])) ∧
    (cfg.pushToTalk = true →
      st.registeredAccelerator ≠
          some (if cfg.pushToTalkKeybind = "" then "Shift+Space"
            else cfg.pushToTalkKeybind) →
        registerPushToTalkHotkey gs cfg st =
          ((bindStrategies
              (if cfg.pushToTalkKeybind = "" then "Shift+Space"
                else cfg.pushToTalkKeybind) gs (unregisterPushToTalkHotkey st).1).1,
            (unregisterPushToTalkHotkey st).2 ++
              (bindStrategies
                (if cfg.pushToTalkKeybind = "" then "Shift+Space"
                  else cfg.pushToTalkKeybind) gs
                (unregisterPushToTalkHotkey st).1).2)) ∧
    (∀ mo : Mode, registerPushToTalkHotkey gs { cfg with pushToTalkMode := mo } st =
      registerPushToTalkHotkey gs cfg st) := by
  refine ⟨?_, ?_, fun mo => rfl⟩
  · intro hp hacc
    simp [registerPushToTalkHotkey, hp, hacc]
  · intro hp hacc
    simp [registerPushToTalkHotkey, hp, hacc]

/-- Witness for C5: re-registering the bound accelerator `V` (in any
mode) is a no-op. -/
theorem claim5_witness :
    registerPushToTalkHotkey true ⟨true, "V", Mode.toggle⟩ boundVState =
      (boundVState, []) :=
  (claim5_reregistration_amended true ⟨true, "V", Mode.toggle⟩ boundVState).1 rfl
    (by decide)

/-- C7 counterexample: the `src/native/pushToTalk.ts` manual handler
applied to the malformed payload of an object without an `active` field
assigns `undefined` to `isPttActive` (a mutation away from any boolean
state) and sends it, instead of dropping the request. -/
theorem claim7_counterexample :
    pttManualHandlerDyn (JsValue.vObj []) =
      some (JsValue.vUndefined, [JsValue.vUndefined]) ∧
    manualPayloadValid (JsValue.vObj []) = false ∧
    JsValue.vUndefined ≠ JsValue.vBool false :=
  ⟨rfl, rfl, fun h => JsValue.noConfusion h⟩

/-- C7 amended: the `src/native/window.ts` handler validates the payload
and drops every malformed one with no state mutation and no event, while
applying a well-formed one directly; the `src/native/pushToTalk.ts`
handler performs no validation — it stores and sends `data.active`
verbatim (undefined when the field is missing or the payload is a
primitive) and throws on a null payload. -/
theorem claim7_invalid_payload_amended (w : WinState) (data : JsValue) (b : Bool) :
    (manualPayloadValid data = false → winManualHandler w data = (w, [])) ∧
    winManualHandler w (JsValue.vObj [("active", JsValue.vBool b)]) =
      ({ w with isPttActive := b }, [b]) ∧
    pttManualHandlerDyn (JsValue.vObj []) =
      some (JsValue.vUndefined, [JsValue.vUndefined]) ∧
    pttManualHandlerDyn (JsValue.vBool b) =
      some (JsValue.vUndefined, [JsValue.vUndefined]) ∧
    pttManualHandlerDyn JsValue.vNull = none := by
  refine ⟨?_, rfl, rfl, rfl, rfl⟩
  intro hv
  simp [winManualHandler, hv]

/-- Witness for C7: a numeric payload is dropped by the validating
handler. -/
theorem claim7_witness :
    winManualHandler winStart (JsValue.vNum 5) = (winStart, []) :=
  (claim7_invalid_payload_amended winStart (JsValue.vNum 5) true).1 rfl

/-- C8 counterexample: the `src/native/window.ts` parser does not follow
the claimed algorithm on the input `ctrl-v` — it does not split on `-`,
so the whole string becomes the key and the ctrl modifier is lost. -/
theorem claim8_counterexample :
    parseAcceleratorWin "ctrl-v" ≠ claimedParse "ctrl-v" := by decide

/-- C8 amended: the `src/native/pushToTalk.ts` parser implements exactly
the claimed total canonicalization (split on `+` and `-`, final token is
the key, modifier flags from the fixed vocabularies, unknown tokens
dropped); the `src/native/window.ts` parser implements the same
canonicalization with the separator set restricted to `+` only. -/
theorem claim8_canonical_amended :
    (∀ s, parseAccelerator s = claimedParse s) ∧
      ∀ s, parseAcceleratorWin s = claimedParseWin s := by
  constructor
  · intro s
    simp only [parseAccelerator, claimedParse, Accelerator.mk.injEq]
    exact ⟨trivial, contains_pair _ "ctrl" "control", contains_single _ "shift",
      contains_single _ "alt", contains_triple _ "meta" "cmd" "command"⟩
  · intro s
    simp only [parseAcceleratorWin, claimedParseWin, Accelerator.mk.injEq]
    exact ⟨trivial, contains_pair _ "ctrl" "control", contains_single _ "shift",
      contains_single _ "alt", contains_triple_swap _ "meta" "command" "cmd"⟩

end StoatPTT
